import Mathlib

/-!
# Verification of the Quotex candle-streak monitor

A shallow embedding of `monitor.py` (and its near-identical duplicate in
`missing files/monitor.py`): the candle classifier `candle_color`, the
per-instrument streak buffer (`deque(maxlen=4)` plus the streak test), the
alert-gate cooldown check, the instrument selector `pick_top_3_assets`, and
the per-instrument decision logic of one polling-loop tick.

Modelling conventions:
* A value stored in a candle dict is characterised by the only two things the
  code consults: the result of `float(v)` (`none` when the call raises, as it
  does for `None` and non-numeric strings) and its Python truthiness.
* Prices and payouts (Python floats) are modelled by `ℚ`; the code only ever
  compares them. Clock times (`time.time()` and the cooldown) are modelled by
  `ℤ` time points; the code only ever subtracts and compares them.
* `list.sort(key=..., reverse=True)` is a stable sort by descending key; any
  two stable sorts with the same total preorder compute the same list, so it
  is embedded as Mathlib's stable `List.insertionSort` with the relation
  "left payout is at least right payout".
* Exceptions are modelled by `Option`/explicit outcome constructors where the
  code catches them.
-/

namespace QuotexMonitor

/-- A Python object sitting in a candle dict, abstracted to the two
attributes `candle_color` consults: what `float(v)` yields (`none` when the
coercion raises) and the object's truthiness. -/
structure PyVal where
  asFloat : Option ℚ
  truthy : Bool
deriving DecidableEq, Repr

/-- A genuine numeric value `q` (Python int/float): coerces to itself and is
truthy exactly when nonzero. -/
def pyNum (q : ℚ) : PyVal := ⟨some q, decide (q ≠ 0)⟩

/-- Truthiness of `candle.get(k)`: a missing key yields Python `None`,
which is falsy. -/
def pyTruthy : Option PyVal → Bool
  | none => false
  | some v => v.truthy

/-- Python `a or b`: `a` when `a` is truthy, otherwise `b`. -/
def pyOr (a b : Option PyVal) : Option PyVal :=
  if pyTruthy a then a else b

/-- `float(x)` applied to the result of the `or`-chain: raises (`none`) on
`None` and on non-coercible values. -/
def pyFloat : Option PyVal → Option ℚ
  | none => none
  | some v => v.asFloat

/-- A candle record, restricted to the six dict keys `candle_color` reads:
`"open"`, `"o"`, `"O"`, `"close"`, `"c"`, `"C"`. A field is `none` when the
key is absent from the dict. -/
structure Candle where
  openF : Option PyVal
  oF : Option PyVal
  OF : Option PyVal
  closeF : Option PyVal
  cF : Option PyVal
  CF : Option PyVal
deriving DecidableEq, Repr

/-- The classifier's three possible results (`monitor.py` lines 63-70). -/
inductive Color where
  | green
  | red
  | doji
deriving DecidableEq, Repr

/-- `float(candle.get("open") or candle.get("o") or candle.get("O"))`,
`none` when the call raises (caught by the surrounding `try`). -/
def openVal (cd : Candle) : Option ℚ :=
  pyFloat (pyOr (pyOr cd.openF cd.oF) cd.OF)

/-- `float(candle.get("close") or candle.get("c") or candle.get("C"))`. -/
def closeVal (cd : Candle) : Option ℚ :=
  pyFloat (pyOr (pyOr cd.closeF cd.cF) cd.CF)

/-- `candle_color` (`monitor.py` lines 55-70): green when close > open, red
when close < open, doji otherwise; every exception is swallowed into doji. -/
def candle_color (cd : Candle) : Color :=
  match openVal cd, closeVal cd with
  | some o, some c => if c > o then .green else if c < o then .red else .doji
  | _, _ => .doji

/-- `deque(maxlen=4).append`: appends on the right, evicting the leftmost
entry when the deque already holds 4 (`recent_colors`, line 39). -/
def dequeAppend (l : List Color) (x : Color) : List Color :=
  if l.length < 4 then l ++ [x] else l.tail ++ [x]

/-- `len(seq) == 4 and all(c == seq[0] for c in seq)` (line 182). -/
def isStreak (l : List Color) : Bool :=
  l.length == 4 &&
    (match l.head? with
     | some h => l.all (fun c => c == h)
     | none => false)

/-- One Streak Tracker observation (lines 176-182): a doji is skipped
entirely (buffer untouched, no streak); anything else is appended and the
streak test is evaluated on the new buffer. -/
def observe (buf : List Color) (c : Color) : List Color × Bool :=
  if c = .doji then (buf, false)
  else
    let b := dequeAppend buf c
    (b, isStreak b)

/-- Feed a sequence of outcomes through `observe`, returning the final
buffer and the per-outcome streak signals. -/
def observeRun : List Color → List Color → List Color × List Bool
  | buf, [] => (buf, [])
  | buf, c :: cs =>
    let p := observe buf c
    let rest := observeRun p.1 cs
    (rest.1, p.2 :: rest.2)

/-- `last_alert_time = defaultdict(lambda: 0)` (line 38): the last-alert
timestamp an instrument starts with. -/
def LAST_ALERT_DEFAULT : ℤ := 0

/-- The Alert Gate check, inline in `monitor.py` line 184:
`now - last_alert_time[asset] >= COOLDOWN_SECONDS`. -/
def should_fire (last_alert now cooldown : ℤ) : Bool :=
  decide (now - last_alert ≥ cooldown)

/-- The Alert Gate update, inline in line 188:
`last_alert_time[asset] = now` yields the new last-alert timestamp. -/
def record_fire (now : ℤ) : ℤ := now

/-- The payout field `i[5]` of a catalog tuple as `pick_top_3_assets` reads
it: Python `None`, the empty string (both mapped to `0.0`), a value that
`float` coerces to `q`, or a value on which `float` raises. -/
inductive PayField where
  | pnull
  | pempty
  | pval (q : ℚ)
  | pbad
deriving DecidableEq, Repr

/-- One element of `qx.api.instruments`: a tuple carrying an instrument code
at index 1 and a payout at index 5, or one whose indexing itself raises
(too short, wrong shape), which the `except ... continue` skips. -/
inductive InstEntry where
  | entry (code : String) (pay : PayField)
  | malformed
deriving DecidableEq, Repr

/-- The body of the `for i in instruments` loop (lines 82-88): yields the
`(code, payment)` pair the entry contributes, or `none` when the entry is
skipped by the `except Exception: continue`. -/
def entryPair : InstEntry → Option (String × ℚ)
  | .entry code .pnull => some (code, 0)
  | .entry code .pempty => some (code, 0)
  | .entry code (.pval q) => some (code, q)
  | .entry _ .pbad => none
  | .malformed => none

/-- The ordering used by `pairs.sort(key=lambda x: x[1], reverse=True)`:
`a` may precede `b` exactly when `a`'s payout is at least `b`'s. -/
def payLE (a b : String × ℚ) : Prop := b.2 ≤ a.2

instance : DecidableRel payLE := fun a b => inferInstanceAs (Decidable (b.2 ≤ a.2))

instance : IsTotal (String × ℚ) payLE := ⟨fun a b => le_total b.2 a.2⟩

instance : IsTrans (String × ℚ) payLE := ⟨fun _ _ _ hab hbc => le_trans hbc hab⟩

/-- `pairs.sort(key=lambda x: x[1], reverse=True)` (line 90): a stable sort
by payout descending, ties kept in catalog order. Stable sorts of a list
under one total preorder all agree, so the stable `insertionSort` is the
same list Python's stable sort produces. -/
def sortByPayDesc (l : List (String × ℚ)) : List (String × ℚ) :=
  l.insertionSort payLE

/-- `pick_top_3_assets` (lines 73-99). `instruments = none` models an
absent `qx.api.instruments` attribute, `some []` an empty one; both are
falsy at `if instruments:` and take the fallback, as does a catalog whose
entries all fail extraction. `codes_asset = none` models `qx.codes_asset`
raising, in which case the fallback `except` returns `[]`. -/
def pick_top_3_assets (instruments : Option (List InstEntry))
    (codes_asset : Option (List String)) : List String :=
  let fromCatalog : List String :=
    match instruments with
    | some insts =>
      if insts.isEmpty then []
      else ((sortByPayDesc (insts.filterMap entryPair)).take 3).map Prod.fst
    | none => []
  if fromCatalog.isEmpty then
    match codes_asset with
    | some codes => codes.take 3
    | none => []
  else fromCatalog

/-- Per-instrument state held by the module-level maps: `last_seen_ts`
(line 145), the `recent_colors` deque and the `last_alert_time` entry. -/
structure InstState where
  lastSeen : Option ℤ
  buf : List Color
  lastAlert : ℤ
deriving DecidableEq, Repr

/-- What `send_telegram` (lines 42-52) amounts to for its caller: console
fallback when the bot token or chat id is unset, otherwise a post that
either succeeds or fails; the `except` swallows the failure, so the caller
cannot observe which of the last two happened. -/
inductive SendResult where
  | consoleOnly
  | sent
  | failed
deriving DecidableEq, Repr

/-- `send_telegram`: `hasCreds` is whether both Telegram env vars are set,
`postOk` whether `requests.post` succeeds with a 2xx status. -/
def send_telegram (hasCreds postOk : Bool) : SendResult :=
  if !hasCreds then .consoleOnly
  else if postOk then .sent
  else .failed

/-- The ordering of `sorted(candles.items(), key=lambda x: int(x[0]))`:
ascending timestamps. -/
def tsLE (a b : ℤ × Candle) : Prop := a.1 ≤ b.1

instance : DecidableRel tsLE := fun a b => inferInstanceAs (Decidable (a.1 ≤ b.1))

/-- `sorted(candles.items(), key=lambda x: int(x[0]))` (line 162), as the
stable `insertionSort` on ascending timestamps. -/
def sortCandles (l : List (ℤ × Candle)) : List (ℤ × Candle) :=
  l.insertionSort tsLE

/-- The per-instrument body of one polling tick (lines 157-188), from
`if not candles: continue` onward: dedup on the latest timestamp, classify,
feed the streak buffer, consult the cooldown gate and, when it allows,
dispatch and record the fire. Returns the new per-instrument state and
`some r` exactly when a dispatch was attempted (with its outcome `r`). -/
def processInstrument (cooldown : ℤ) (hasCreds postOk : Bool) (now : ℤ)
    (candles : List (ℤ × Candle)) (s : InstState) : InstState × Option SendResult :=
  if candles.isEmpty then (s, none)
  else
    match (sortCandles candles).getLast? with
    | none => (s, none)
    | some (ts, cd) =>
      if s.lastSeen = some ts then (s, none)
      else
        let s1 : InstState := { s with lastSeen := some ts }
        let color := candle_color cd
        if color = .doji then (s1, none)
        else
          let b := dequeAppend s1.buf color
          let s2 : InstState := { s1 with buf := b }
          if isStreak b then
            if should_fire s2.lastAlert now cooldown then
              ({ s2 with lastAlert := record_fire now }, some (send_telegram hasCreds postOk))
            else (s2, none)
          else (s2, none)

/-- What one tick holds for one instrument: the candle fetch raised (caught
at lines 153-155, treated as no data), it returned data, or processing the
instrument raises an exception not caught inside the per-instrument code
(e.g. `candles.items()` on a truthy non-mapping in the duplicate file),
which only the `except` wrapping the whole `for` loop (line 189) catches. -/
inductive InstrInput where
  | fetchFail
  | data (candles : List (ℤ × Candle))
  | raisesUncaught
deriving DecidableEq, Repr

/-- One tick of the `while True` loop over the watch-list (lines 147-192),
each instrument paired with its per-instrument state. Returns the states
after the tick and whether the loop survives to `asyncio.sleep` (the
`except Exception` at line 189 catches every uncaught tick failure, so it
always does). An uncaught failure aborts the `for` loop, leaving the
remaining instruments' states untouched for this tick. -/
def runTick (cooldown : ℤ) (hasCreds postOk : Bool) (now : ℤ) :
    List (InstrInput × InstState) → List InstState × Bool
  | [] => ([], true)
  | (inp, s) :: rest =>
    match inp with
    | .raisesUncaught => (s :: rest.map Prod.snd, true)
    | .fetchFail =>
      let out := runTick cooldown hasCreds postOk now rest
      (s :: out.1, out.2)
    | .data cs =>
      let out := runTick cooldown hasCreds postOk now rest
      ((processInstrument cooldown hasCreds postOk now cs s).1 :: out.1, out.2)

/-! ## Concrete records used by witnesses and counterexamples -/

/-- The candle dict `{"open": 0, "close": 5}`: both fields present and
numeric, `close > open`. -/
def zeroOpenCandle : Candle :=
  { openF := some (pyNum 0), oF := none, OF := none,
    closeF := some (pyNum 5), cF := none, CF := none }

/-- The candle dict `{"open": 1, "close": 2}`: a plain green candle. -/
def greenCandle : Candle :=
  { openF := some (pyNum 1), oF := none, OF := none,
    closeF := some (pyNum 2), cF := none, CF := none }

/-! ## Claim theorems -/

/-- C1: from a fresh tracker, 4 identical non-Flat outcomes make `observe`
report a streak on the 4th and on none of the first 3; 3 identical outcomes
followed by any differing outcome never report a streak. -/
theorem streak_reported_only_on_fourth (c d : Color) (hc : c ≠ .doji) (hd : d ≠ c) :
    (observeRun [] [c, c, c, c]).2 = [false, false, false, true] ∧
    (observeRun [] [c, c, c, d]).2 = [false, false, false, false] := by
  revert hc hd
  cases c <;> cases d <;> decide

/-- Witness for C1 at green/red. -/
theorem streak_reported_only_on_fourth_witness :
    (observeRun [] [.green, .green, .green, .green]).2 = [false, false, false, true] ∧
    (observeRun [] [.green, .green, .green, .red]).2 = [false, false, false, false] :=
  streak_reported_only_on_fourth .green .red (by decide) (by decide)

/-- C2 counterexample: the candle `{"open": 0, "close": 5}` has both fields
present and numeric with `close > open`, so the claim requires Up (green);
the code classifies it doji, because the numeric `0` is falsy and
`candle.get("open") or candle.get("o") or candle.get("O")` falls through to
`None`, on which `float` raises. -/
theorem classify_zero_open_not_up :
    (0 : ℚ) < 5 ∧ candle_color zeroOpenCandle = .doji := by
  decide

/-- C2 amended: whenever the resolved open and close values (the `float` of
the first truthy value of the key chain, else of its last value) are both
numeric, `classify` returns Up iff close > open, Down iff close < open and
Flat iff close = open; whenever either resolution fails, it returns Flat.
`candle_color` is a total Lean function: it never raises and has no side
effects. -/
theorem candle_color_spec (cd : Candle) :
    (∀ o c, openVal cd = some o → closeVal cd = some c →
      ((candle_color cd = .green ↔ o < c) ∧
       (candle_color cd = .red ↔ c < o) ∧
       (candle_color cd = .doji ↔ c = o))) ∧
    (openVal cd = none → candle_color cd = .doji) ∧
    (closeVal cd = none → candle_color cd = .doji) := by
  refine ⟨fun o c ho hc => ?_, fun ho => ?_, fun hc => ?_⟩
  · simp only [candle_color, ho, hc]
    split_ifs with h1 h2
    · exact ⟨by simp [h1], by simp [lt_asymm h1], by simp [ne_of_gt h1]⟩
    · exact ⟨by simp [lt_asymm h2], by simp [h2], by simp [ne_of_lt h2]⟩
    · have hco : c = o := le_antisymm (le_of_not_lt h1) (le_of_not_lt h2)
      exact ⟨by simp [h1], by simp [h2], by simp [hco]⟩
  · cases hcv : closeVal cd <;> simp [candle_color, ho, hcv]
  · cases hov : openVal cd <;> simp [candle_color, hov, hc]

/-- Witness for C2 (amended) at the candle `{"open": 1, "close": 2}`. -/
theorem candle_color_spec_witness :
    (candle_color greenCandle = .green ↔ (1 : ℚ) < 2) ∧
    (candle_color greenCandle = .red ↔ (2 : ℚ) < 1) ∧
    (candle_color greenCandle = .doji ↔ (2 : ℚ) = 1) :=
  (candle_color_spec greenCandle).1 1 2 (by decide) (by decide)

/-- C10: a falsy value under a preferred key (`"open"`, `"close"`) makes the
`or`-chain fall through to the alternate keys; consequently a candle whose
`"open"` value is the number 0, with no alternate open key, is classified
doji whatever its close fields hold. -/
theorem falsy_key_fallthrough (cd : Candle) :
    (pyTruthy cd.openF = false → openVal cd = pyFloat (pyOr cd.oF cd.OF)) ∧
    (pyTruthy cd.closeF = false → closeVal cd = pyFloat (pyOr cd.cF cd.CF)) ∧
    (cd.openF = some (pyNum 0) → cd.oF = none → cd.OF = none →
      candle_color cd = .doji) := by
  refine ⟨fun h => ?_, fun h => ?_, fun h1 h2 h3 => ?_⟩
  · simp [openVal, pyOr, h]
  · simp [closeVal, pyOr, h]
  · have hopen : openVal cd = none := by
      simp only [openVal]
      rw [h1, h2, h3]
      decide
    cases hcv : closeVal cd <;> simp [candle_color, hopen, hcv]

/-- Witness for C10 at the candle `{"open": 0, "close": 5}`. -/
theorem falsy_key_fallthrough_witness :
    candle_color zeroOpenCandle = .doji :=
  (falsy_key_fallthrough zeroOpenCandle).2.2 rfl rfl rfl

/-- C3 counterexample: with the default last-alert value 0 and the default
cooldown 300, a first check at clock time 0 — a clock reading less than the
cooldown — returns false, so the first check does not unconditionally
return true; it does so only for `now ≥ cooldown`. -/
theorem first_check_not_always_true :
    should_fire LAST_ALERT_DEFAULT 0 300 = false := by
  decide

/-- C3 amended: `should_fire` is exactly the cooldown inequality; with the
default last-alert value the first check returns true whenever
`now ≥ cooldown` (any realistic wall clock); an immediate second check
after `record_fire` returns false whenever `cooldown > 0`; a check
performed at least `cooldown` later returns true again. -/
theorem should_fire_spec (last now later cooldown : ℤ) :
    (should_fire last now cooldown = true ↔ now - last ≥ cooldown) ∧
    (now ≥ cooldown → should_fire LAST_ALERT_DEFAULT now cooldown = true) ∧
    (cooldown > 0 → should_fire (record_fire now) now cooldown = false) ∧
    (later - now ≥ cooldown → should_fire (record_fire now) later cooldown = true) := by
  refine ⟨by simp [should_fire], fun h => ?_, fun h => ?_, fun h => ?_⟩
  · simp only [should_fire, LAST_ALERT_DEFAULT, decide_eq_true_eq]
    omega
  · simp only [should_fire, record_fire, decide_eq_false_iff_not]
    omega
  · simp only [should_fire, record_fire, decide_eq_true_eq]
    omega

/-- Witness for C3 (amended): cooldown 300, first check at 1000, repeat
check at 1000, later check at 1300. -/
theorem should_fire_spec_witness :
    should_fire LAST_ALERT_DEFAULT 1000 300 = true ∧
    should_fire (record_fire 1000) 1000 300 = false ∧
    should_fire (record_fire 1000) 1300 300 = true :=
  ⟨(should_fire_spec 0 1000 1300 300).2.1 (by decide),
   (should_fire_spec 0 1000 1300 300).2.2.1 (by decide),
   (should_fire_spec 0 1000 1300 300).2.2.2 (by decide)⟩

/-- C5 counterexample: 5 identical green outcomes into a fresh tracker.
The claim requires the 5th signal to be false; the deque still reads 4
identical entries after the 5th append, so `observe` reports a streak
again: the signals are `[false, false, false, true, true]`. -/
theorem fifth_identical_retriggers_counterexample :
    (observeRun [] [.green, .green, .green, .green, .green]).2
      = [false, false, false, true, true] := by
  decide

/-- C5 amended: a 5th identical non-Flat outcome fed to a full identical
buffer leaves the buffer unchanged and makes `observe` report a streak
AGAIN; the once-per-streak behaviour of the program comes solely from the
Alert Gate, which suppresses a dispatch while `now - last_alert` is still
below the cooldown. -/
theorem fifth_identical_retriggers (c : Color) (hc : c ≠ .doji)
    (last now cooldown : ℤ) :
    observe [c, c, c, c] c = ([c, c, c, c], true) ∧
    (now - last < cooldown → should_fire last now cooldown = false) := by
  constructor
  · revert hc
    cases c <;> decide
  · intro h
    simp only [should_fire, decide_eq_false_iff_not]
    omega

/-- Witness for C5 (amended) at green, with the gate 10s after an alert. -/
theorem fifth_identical_retriggers_witness :
    observe [.green, .green, .green, .green] .green
      = ([.green, .green, .green, .green], true) ∧
    should_fire 990 1000 300 = false :=
  ⟨(fifth_identical_retriggers .green (by decide) 990 1000 300).1,
   (fifth_identical_retriggers .green (by decide) 990 1000 300).2 (by decide)⟩

/-- Membership in a deque append comes from the old buffer or is the new
element. -/
theorem mem_of_mem_dequeAppend {x c : Color} {l : List Color}
    (h : x ∈ dequeAppend l c) : x ∈ l ∨ x = c := by
  unfold dequeAppend at h
  split at h <;> simp only [List.mem_append, List.mem_singleton] at h
  · exact h
  · rcases h with h | h
    · exact Or.inl (List.mem_of_mem_tail h)
    · exact Or.inr h

/-- `observe` never inserts a doji into a doji-free buffer. -/
theorem doji_not_mem_observe {buf : List Color} (c : Color)
    (h : Color.doji ∉ buf) : Color.doji ∉ (observe buf c).1 := by
  by_cases hc : c = .doji
  · simpa [observe, hc] using h
  · simp only [observe, if_neg hc]
    intro hmem
    rcases mem_of_mem_dequeAppend hmem with h1 | h1
    · exact h h1
    · exact hc h1.symm

/-- C6: a Flat outcome leaves the buffer untouched and reports no streak;
along any outcome sequence a doji is never inserted, so no reachable buffer
ever mixes a Flat in. -/
theorem flat_outcomes_are_noops :
    (∀ buf, observe buf .doji = (buf, false)) ∧
    (∀ start outs, Color.doji ∉ start → Color.doji ∉ (observeRun start outs).1) := by
  constructor
  · intro buf
    simp [observe]
  · intro start outs
    induction outs generalizing start with
    | nil => intro h; simpa [observeRun] using h
    | cons c cs ih =>
      intro h
      simp only [observeRun]
      exact ih _ (doji_not_mem_observe c h)

/-- Witness for C6: a doji in the middle of 4 greens is never inserted. -/
theorem flat_outcomes_are_noops_witness :
    observe [.green] .doji = ([.green], false) ∧
    Color.doji ∉ (observeRun [] [.green, .green, .doji, .green, .green]).1 :=
  ⟨flat_outcomes_are_noops.1 [.green],
   flat_outcomes_are_noops.2 [] [.green, .green, .doji, .green, .green] (by decide)⟩

/-- A tracker that has already seen 3 greens, gate still at its default. -/
def preStreakState : InstState :=
  { lastSeen := none, buf := [.green, .green, .green], lastAlert := 0 }

/-- A state that has already processed the candle at timestamp 400. -/
def seenState : InstState :=
  { lastSeen := some 400, buf := [.green], lastAlert := 7 }

/-- A completely fresh per-instrument state. -/
def freshState : InstState :=
  { lastSeen := none, buf := [], lastAlert := 0 }

/-- C4 (code bug): a 4th green candle at timestamp 400 completes a streak
at clock time 1000 with Telegram credentials set and the post FAILING
(`requests.post` raises or returns non-2xx, swallowed inside
`send_telegram`); the loop still sets `last_alert_time[asset] = now`, so
the failed dispatch arms the cooldown. The second conjunct shows why: the
resulting state never depends on the delivery outcome at all. -/
theorem alert_gate_armed_despite_failed_dispatch :
    (processInstrument 300 true false 1000 [(400, greenCandle)] preStreakState
      = ({ lastSeen := some 400, buf := [.green, .green, .green, .green],
           lastAlert := 1000 }, some .failed)) ∧
    (∀ (cooldown now : ℤ) (hasCreds p1 p2 : Bool) (cs : List (ℤ × Candle)) (s : InstState),
      (processInstrument cooldown hasCreds p1 now cs s).1
        = (processInstrument cooldown hasCreds p2 now cs s).1) := by
  constructor
  · decide
  · intro cooldown now hasCreds p1 p2 cs s
    unfold processInstrument
    repeat' split
    all_goals dsimp only
    all_goals repeat' split
    all_goals rfl

/-- C8: when the latest fetched timestamp equals the one last processed for
the instrument, the tick returns the state unchanged — no classification,
no buffer update, no gate update and no dispatch. -/
theorem dedup_leaves_state_unchanged (cooldown : ℤ) (hasCreds postOk : Bool)
    (now ts : ℤ) (cd : Candle) (candles : List (ℤ × Candle)) (s : InstState)
    (hlast : (sortCandles candles).getLast? = some (ts, cd))
    (hseen : s.lastSeen = some ts) :
    processInstrument cooldown hasCreds postOk now candles s = (s, none) := by
  have hne : candles.isEmpty = false := by
    rcases candles with _ | ⟨a, l⟩
    · simp [sortCandles] at hlast
    · rfl
  simp [processInstrument, hne, hlast, hseen]

/-- Witness for C8: re-fetching timestamp 400 changes nothing. -/
theorem dedup_leaves_state_unchanged_witness :
    processInstrument 300 true true 1000 [(400, greenCandle)] seenState
      = (seenState, none) :=
  dedup_leaves_state_unchanged 300 true true 1000 400 greenCandle
    [(400, greenCandle)] seenState (by decide) rfl

/-- C9 counterexample: a tick over two instruments where the first raises
an uncaught exception. The loop survives (second component true), but the
second instrument — which had a fresh candle that processing would have
consumed, as the final conjunct shows — is returned untouched: the failure
of one instrument did prevent another from being processed that tick. -/
theorem failure_skips_remaining_counterexample :
    runTick 300 true true 1000
        [(.raisesUncaught, freshState), (.data [(100, greenCandle)], freshState)]
      = ([freshState, freshState], true) ∧
    (processInstrument 300 true true 1000 [(100, greenCandle)] freshState).1
      ≠ freshState := by
  decide

/-- C9 amended: an uncaught per-instrument failure never terminates the
polling loop — the tick-level handler catches it and the loop proceeds to
sleep and re-poll — but it aborts the rest of that tick: instruments before
the failing one are processed normally, while the failing one and every
instrument after it keep their state until the next tick. -/
theorem tick_failure_never_kills_loop (cooldown : ℤ) (hasCreds postOk : Bool)
    (now : ℤ) (pre post : List (InstrInput × InstState)) (s : InstState)
    (hpre : ∀ p ∈ pre, p.1 ≠ InstrInput.raisesUncaught) :
    (∀ inputs, (runTick cooldown hasCreds postOk now inputs).2 = true) ∧
    (runTick cooldown hasCreds postOk now
        (pre ++ (InstrInput.raisesUncaught, s) :: post)).1
      = (runTick cooldown hasCreds postOk now pre).1 ++ s :: post.map Prod.snd := by
  constructor
  · intro inputs
    induction inputs with
    | nil => rfl
    | cons p rest ih =>
      rcases p with ⟨inp, st⟩
      cases inp <;> simp [runTick, ih]
  · revert hpre
    induction pre with
    | nil =>
      intro _
      simp [runTick]
    | cons p rest ih =>
      intro hpre
      rcases p with ⟨inp, st⟩
      have h1 : inp ≠ InstrInput.raisesUncaught := hpre (inp, st) (by simp)
      have h2 : ∀ q ∈ rest, q.1 ≠ InstrInput.raisesUncaught := fun q hq =>
        hpre q (by simp [hq])
      cases inp with
      | raisesUncaught => exact absurd rfl h1
      | fetchFail => simp [runTick, ih h2]
      | data cs => simp [runTick, ih h2]

/-- Witness for C9 (amended): one healthy instrument, then a failing one,
then one more; the healthy prefix is processed, the rest carried over. -/
theorem tick_failure_never_kills_loop_witness :
    (runTick 300 true true 1000
        [(.data [(100, greenCandle)], freshState),
         (.raisesUncaught, freshState),
         (.fetchFail, seenState)]).1
      = (runTick 300 true true 1000 [(.data [(100, greenCandle)], freshState)]).1
          ++ freshState :: [seenState] :=
  (tick_failure_never_kills_loop 300 true true 1000
    [(.data [(100, greenCandle)], freshState)] [(.fetchFail, seenState)]
    freshState (by decide)).2

/-- When extraction yields at least one pair, the selector returns the
first 3 codes of the descending stable sort of the extracted pairs. -/
theorem pick_some_eq (insts : List InstEntry) (codes : List String)
    (hne : insts.filterMap entryPair ≠ []) :
    pick_top_3_assets (some insts) (some codes)
      = ((sortByPayDesc (insts.filterMap entryPair)).take 3).map Prod.fst := by
  have hinsts : insts.isEmpty = false := by
    rcases insts with _ | ⟨a, l⟩
    · simp at hne
    · rfl
  have hres : (((sortByPayDesc (insts.filterMap entryPair)).take 3).map Prod.fst) ≠ [] := by
    have hlen : (((sortByPayDesc (insts.filterMap entryPair)).take 3).map Prod.fst).length
        = min 3 (insts.filterMap entryPair).length := by
      simp [sortByPayDesc, (List.perm_insertionSort payLE (insts.filterMap entryPair)).length_eq]
    have hppos : 0 < (insts.filterMap entryPair).length := List.length_pos.mpr hne
    intro h0
    rw [h0] at hlen
    simp at hlen
    omega
  simp [pick_top_3_assets, hinsts, hres]
  intro h0
  exfalso
  have hp := (List.perm_insertionSort payLE (insts.filterMap entryPair)).length_eq
  unfold sortByPayDesc at h0
  rw [h0] at hp
  exact absurd (List.length_eq_zero.mp hp.symm) hne

/-- C7: with a nonempty catalog of distinct payout weights the selector
returns exactly the first 3 codes of a strictly-descending rearrangement of
the extracted pairs; ties in general keep catalog order in the sort; an
absent catalog, or one yielding no pairs, falls back to the first 3 codes
of the secondary listing; with the secondary listing unavailable too, the
result is empty; the result never exceeds 3 entries. -/
theorem pick_top_3_assets_spec (insts : List InstEntry) (codes : List String) :
    ((insts.filterMap entryPair ≠ [] ∧
        ((insts.filterMap entryPair).map Prod.snd).Nodup) →
      ∃ s : List (String × ℚ), s.Perm (insts.filterMap entryPair) ∧
        s.Pairwise (fun a b => b.2 < a.2) ∧
        pick_top_3_assets (some insts) (some codes) = (s.take 3).map Prod.fst) ∧
    (∀ a b : String × ℚ, a.2 = b.2 →
      [a, b].Sublist (insts.filterMap entryPair) →
      [a, b].Sublist (sortByPayDesc (insts.filterMap entryPair))) ∧
    (pick_top_3_assets none (some codes) = codes.take 3) ∧
    (insts.filterMap entryPair = [] →
      pick_top_3_assets (some insts) (some codes) = codes.take 3) ∧
    (pick_top_3_assets none none = [] ∧
      (insts.filterMap entryPair = [] → pick_top_3_assets (some insts) (some []) = [])) ∧
    (∀ (i : Option (List InstEntry)) (c : Option (List String)),
      (pick_top_3_assets i c).length ≤ 3) := by
  have hfallback : ∀ cs : List String, insts.filterMap entryPair = [] →
      pick_top_3_assets (some insts) (some cs) = cs.take 3 := by
    intro cs h
    rcases insts with _ | ⟨a, l⟩
    · simp [pick_top_3_assets]
    · simp [pick_top_3_assets, h, sortByPayDesc]
  refine ⟨fun ⟨hne, hnodup⟩ => ?_, fun a b hab hsub => ?_, ?_, hfallback codes, ⟨rfl, fun h => by simp [hfallback [] h]⟩, fun i c => ?_⟩
  · refine ⟨sortByPayDesc (insts.filterMap entryPair),
      List.perm_insertionSort payLE (insts.filterMap entryPair), ?_,
      pick_some_eq insts codes hne⟩
    have hsorted : (sortByPayDesc (insts.filterMap entryPair)).Pairwise payLE :=
      List.sorted_insertionSort payLE (insts.filterMap entryPair)
    have hne2 : (insts.filterMap entryPair).Pairwise (fun a b => a.2 ≠ b.2) :=
      List.pairwise_map.mp hnodup
    have hne3 : (sortByPayDesc (insts.filterMap entryPair)).Pairwise (fun a b => a.2 ≠ b.2) :=
      ((List.perm_insertionSort payLE (insts.filterMap entryPair)).pairwise_iff
        (fun h => Ne.symm h)).mpr hne2
    exact (hsorted.and hne3).imp (fun h => lt_of_le_of_ne h.1 (Ne.symm h.2))
  · exact List.pair_sublist_insertionSort (le_of_eq hab.symm) hsub
  · rfl
  · rcases i with _ | insts0 <;> rcases c with _ | codes0 <;>
      simp only [pick_top_3_assets] <;>
      repeat' split
    all_goals simp [List.length_take]

/-- A sample catalog: four well-formed entries with distinct payouts (one
with payout `None`, mapped to 0) and one malformed tuple that the
extraction loop skips. -/
def demoCatalog : List InstEntry :=
  [.entry "AUDCAD" (.pval 80), .entry "EURUSD" (.pval 95), .malformed,
   .entry "GBPJPY" .pnull, .entry "USDJPY" (.pval 90)]

/-- Witness for C7: the sample catalog takes the primary strategy; an
absent catalog falls back to the first 3 secondary codes. -/
theorem pick_top_3_assets_spec_witness :
    (∃ s : List (String × ℚ), s.Perm (demoCatalog.filterMap entryPair) ∧
        s.Pairwise (fun a b => b.2 < a.2) ∧
        pick_top_3_assets (some demoCatalog) (some ["FALLBACK"])
          = (s.take 3).map Prod.fst) ∧
    pick_top_3_assets none (some ["EURUSD_otc", "GBPUSD_otc", "USDJPY_otc", "AUDCAD_otc"])
      = ["EURUSD_otc", "GBPUSD_otc", "USDJPY_otc"] :=
  ⟨(pick_top_3_assets_spec demoCatalog ["FALLBACK"]).1 ⟨by decide, by decide⟩,
   (pick_top_3_assets_spec demoCatalog
      ["EURUSD_otc", "GBPUSD_otc", "USDJPY_otc", "AUDCAD_otc"]).2.2.1⟩

end QuotexMonitor
